import Mathlib

/-!
Shallow embedding of the payment-to-subscription reconciliation engine of
the PrydanJobBackend repository (Express + Mongoose).

Times are milliseconds since the Unix epoch, modelled as `Int` (JavaScript
`Date.getTime()`).  Mongo ObjectIds are modelled as `Nat`.  The opaque
gateway blobs (`gatewayResponse`, `webhookData`) are modelled as
`Option String` snapshots; their exact contents never influence control
flow in the source.  Randomly generated identifiers (receipt, invoice
number suffix) are supplied as explicit parameters where the source draws
them from `Math.random`.
-/

/-- One day in milliseconds: `24 * 60 * 60 * 1000` as used throughout the
source for date arithmetic. -/
def dayMs : Int := 86400000

/-- Payment.status enum of `src/models/Payment.js`. -/
inductive PayStatus
  | pending
  | completed
  | failed
  | cancelled
deriving DecidableEq, Repr

/-- Payment.action enum of `src/models/Payment.js`. -/
inductive PayAction
  | purchase
  | renew
  | upgrade
deriving DecidableEq, Repr

/-- Subscription.status enum of `src/models/Subscription.js`. -/
inductive SubStatus
  | pending
  | active
  | expired
  | cancelled
deriving DecidableEq, Repr

/-- billingHistory entry of the subscription schema:
`{ date, amount, paymentId, status: success|failed }`. -/
structure BillingEntry where
  date : Int
  amount : Int
  paymentId : Nat
  success : Bool
deriving DecidableEq, Repr

/-- Catalog entry of `src/models/Plan.js` (the fields read by the
reconciliation logic). -/
structure Plan where
  id : Nat
  amount : Int
  duration : Int
  priority : Int
  renewLimit : Int
  allowDowngrade : Bool
deriving DecidableEq, Repr

/-- Payment document of `src/models/Payment.js` (fields touched by the
modelled operations). -/
structure Payment where
  id : Nat
  user : Nat
  plan : Nat
  subscription : Option Nat
  action : PayAction
  targetSubscription : Option Nat
  amount : Int
  razorpayOrderId : Option String
  razorpayPaymentId : Option String
  razorpaySignature : Option String
  status : PayStatus
  invoiceNumber : Option String
  invoiceGeneratedAt : Option Int
  gatewayResponse : Option String
  webhookReceived : Bool
  webhookData : Option String
  completedAt : Option Int
  failureReason : Option String
  createdAt : Int
deriving DecidableEq, Repr

/-- Subscription document of `src/models/Subscription.js`. -/
structure Subscription where
  id : Nat
  user : Nat
  plan : Nat
  status : SubStatus
  startDate : Int
  endDate : Int
  paymentId : Option Nat
  billingHistory : List BillingEntry
deriving DecidableEq, Repr

/-- Persistent store: the three collections plus fresh-id counters for
document creation. -/
structure St where
  plans : List Plan
  payments : List Payment
  subs : List Subscription
  nextPayId : Nat
  nextSubId : Nat
deriving DecidableEq, Repr

/-- `Plan.findById`. -/
def findPlan (st : St) (id : Nat) : Option Plan :=
  st.plans.find? (fun pl => pl.id = id)

/-- `Payment.findById`. -/
def findPayment (st : St) (id : Nat) : Option Payment :=
  st.payments.find? (fun p => p.id = id)

/-- `Subscription.findById`. -/
def findSub (st : St) (id : Nat) : Option Subscription :=
  st.subs.find? (fun s => s.id = id)

/-- `payment.save()`: replace the payment document with the same id. -/
def savePayment (st : St) (p : Payment) : St :=
  { st with payments := st.payments.map (fun q => if q.id = p.id then p else q) }

/-- `subscription.save()`: replace the subscription document with the same
id. -/
def saveSub (st : St) (s : Subscription) : St :=
  { st with subs := st.subs.map (fun t => if t.id = s.id then s else t) }

/-!  Calendar arithmetic.  `new Date(y, m, 1)` in the source builds the
first day of the month containing `now`; we model the civil calendar over
epoch milliseconds with the standard days-from-civil conversion
(proleptic Gregorian), month boundaries at midnight. -/

/-- Civil date (year, month 1..12, day) of an epoch day count. -/
def civilFromDays (z0 : Int) : Int × Int × Int :=
  let z := z0 + 719468
  let era := z.fdiv 146097
  let doe := z - era * 146097
  let yoe := (doe - doe.fdiv 1460 + doe.fdiv 36524 - doe.fdiv 146096).fdiv 365
  let y := yoe + era * 400
  let doy := doe - (365 * yoe + yoe.fdiv 4 - yoe.fdiv 100)
  let mp := (5 * doy + 2).fdiv 153
  let d := doy - (153 * mp + 2).fdiv 5 + 1
  let m := if mp < 10 then mp + 3 else mp - 9
  (if m ≤ 2 then y + 1 else y, m, d)

/-- Epoch day count of a civil date. -/
def daysFromCivil (y m d : Int) : Int :=
  let y1 := if m ≤ 2 then y - 1 else y
  let era := y1.fdiv 400
  let yoe := y1 - era * 400
  let mp := if 2 < m then m - 3 else m + 9
  let doy := (153 * mp + 2).fdiv 5 + d - 1
  let doe := yoe * 365 + yoe.fdiv 4 - yoe.fdiv 100 + doy
  era * 146097 + doe - 719468

/-- `new Date(now.getFullYear(), now.getMonth(), 1)` in milliseconds. -/
def startOfMonth (t : Int) : Int :=
  let z := t.fdiv dayMs
  let c := civilFromDays z
  daysFromCivil c.1 c.2.1 1 * dayMs

/-- `new Date(now.getFullYear(), now.getMonth() + 1, 1)` in milliseconds. -/
def startOfNextMonth (t : Int) : Int :=
  let z := t.fdiv dayMs
  let c := civilFromDays z
  if c.2.1 = 12 then daysFromCivil (c.1 + 1) 1 1 * dayMs
  else daysFromCivil c.1 (c.2.1 + 1) 1 * dayMs

/-!  Payment instance methods (`src/models/Payment.js`).  The pre-save
hook generates the invoice number only when the status path was actually
modified to `completed` (Mongoose marks a path modified only when the
assigned value differs) and no invoice number exists yet; it also stamps
`invoiceGeneratedAt` and `completedAt` then. -/

/-- `payment.markCompleted({razorpayPaymentId, razorpaySignature,
gatewayResponse})` followed by the pre-save hook.  `inv` is the invoice
number the hook would generate (date + random suffix). -/
def markCompleted (now : Int) (rp sig gw : Option String) (inv : String)
    (p : Payment) : Payment :=
  let base :=
    { p with
      status := PayStatus.completed
      razorpayPaymentId := match rp with | some v => some v | none => p.razorpayPaymentId
      razorpaySignature := match sig with | some v => some v | none => p.razorpaySignature
      gatewayResponse := match gw with | some v => some v | none => p.gatewayResponse
      completedAt := some now }
  if p.status ≠ PayStatus.completed ∧ p.invoiceNumber = none then
    { base with invoiceNumber := some inv, invoiceGeneratedAt := some now,
                completedAt := some now }
  else base

/-- `payment.markFailed(reason)`: unconditionally sets status and reason
(the source has no already-completed guard). -/
def markFailed (reason : String) (p : Payment) : Payment :=
  { p with status := PayStatus.failed, failureReason := some reason }

/-- The `findOne({ user, status: active, endDate: { $gt: now } })` query:
first stored subscription that matches. -/
def findActiveByUserQ (st : St) (userId : Nat) (now : Int) : Option Subscription :=
  st.subs.find? (fun s =>
    s.user = userId ∧ s.status = SubStatus.active ∧ now < s.endDate)

/-- The renewal-cap count inlined in `verifyPayment` (and duplicated as
`Subscription.countRenewsThisMonth`): completed renew payments targeting
the subscription whose `createdAt` falls inside the current calendar
month. -/
def renewCountThisMonth (st : St) (subId : Nat) (now : Int) : Nat :=
  (st.payments.filter (fun q =>
    q.action = PayAction.renew ∧ q.targetSubscription = some subId ∧
    q.status = PayStatus.completed ∧
    startOfMonth now ≤ q.createdAt ∧ q.createdAt < startOfNextMonth now)).length

/-- `Subscription.countActiveOnPlan` is not a source static; it is the
observation used to state the at-most-one-active-per-plan invariant. -/
def countActiveOnPlan (st : St) (userId planId : Nat) : Nat :=
  (st.subs.filter (fun s =>
    s.user = userId ∧ s.plan = planId ∧ s.status = SubStatus.active)).length

/-- Result of `POST /api/payments/verify` (`verifyPayment` in
`src/controllers/paymentController.js`). -/
inductive VerifyResult
  | err (msg : String) (code : Nat)
  | alreadyProcessed (subId : Nat)
  | renewed (subId : Nat)
  | upgraded (newSubId : Nat)
  | purchased (subId : Nat)
deriving DecidableEq, Repr

/-- The renew block of `verifyPayment` (after the payment has been
completed and the payment plan loaded). -/
def verifyRenew (now : Int) (payment1 : Payment) (plan : Plan) (st1 : St) :
    St × VerifyResult :=
  let subOpt :=
    match payment1.targetSubscription.orElse (fun _ => payment1.subscription) with
    | none => none
    | some sid => findSub st1 sid
  match subOpt with
  | none =>
    (savePayment st1
       (markFailed "Target subscription not found for renewal" payment1),
     VerifyResult.err "Target subscription not found for renewal" 400)
  | some sub =>
    match findPlan st1 sub.plan with
    | none =>
      -- the source dereferences `planForSub.renewLimit` on null and
      -- throws; asyncHandler surfaces it as a generic 500
      (st1, VerifyResult.err "Internal error" 500)
    | some planForSub =>
      let renewLimit := planForSub.renewLimit
      if 0 < renewLimit ∧
          renewLimit ≤ (renewCountThisMonth st1 sub.id now : Int) then
        (savePayment st1
           (markFailed "Renew limit exceeded for this month" payment1),
         VerifyResult.err "You have reached the maximum renewals for this period" 400)
      else
        let currentEnd := if now < sub.endDate then sub.endDate else now
        let sub1 :=
          { sub with
            endDate := currentEnd + plan.duration * dayMs
            billingHistory := sub.billingHistory ++
              [⟨now, payment1.amount, payment1.id, true⟩]
            status := SubStatus.active }
        let st2 := saveSub st1 sub1
        let payment2 := { payment1 with subscription := some sub1.id }
        (savePayment st2 payment2, VerifyResult.renewed sub1.id)

/-- The upgrade block of `verifyPayment`. -/
def verifyUpgrade (now : Int) (payment1 : Payment) (plan : Plan) (st1 : St) :
    St × VerifyResult :=
  match payment1.targetSubscription with
  | none =>
    (savePayment st1
       (markFailed "Target subscription missing for upgrade" payment1),
     VerifyResult.err "Target subscription is required for upgrade" 400)
  | some tid =>
    match findSub st1 tid with
    | none =>
      (savePayment st1
         (markFailed "Old subscription not found for upgrade" payment1),
       VerifyResult.err "Old subscription not found for upgrade" 400)
    | some oldSub =>
      match findPlan st1 oldSub.plan with
      | none =>
        (savePayment st1
           (markFailed "Old plan not found for upgrade" payment1),
         VerifyResult.err "Old plan not found" 400)
      | some oldPlan =>
        if plan.priority ≤ oldPlan.priority then
          (savePayment st1
             (markFailed "Downgrade / same-level upgrade attempted" payment1),
           VerifyResult.err
             "Cannot downgrade or choose same level plan. Upgrade only to higher plans." 400)
        else
          let st2 := saveSub st1 { oldSub with status := SubStatus.expired }
          let newSub : Subscription :=
            { id := st2.nextSubId
              user := payment1.user
              plan := payment1.plan
              status := SubStatus.active
              startDate := now
              endDate := now + plan.duration * dayMs
              paymentId := some payment1.id
              billingHistory := [⟨now, payment1.amount, payment1.id, true⟩] }
          let st3 := { st2 with subs := st2.subs ++ [newSub],
                                nextSubId := st2.nextSubId + 1 }
          let payment2 := { payment1 with subscription := some newSub.id }
          (savePayment st3 payment2, VerifyResult.upgraded newSub.id)

/-- The purchase (default) block of `verifyPayment`; `existingActive` is
the active subscription the handler looked up before dispatching. -/
def verifyPurchase (now : Int) (payment1 : Payment) (plan : Plan)
    (existingActive : Option Subscription) (st1 : St) : St × VerifyResult :=
  if existingActive.any (fun ex => ex.plan == plan.id) then
    (savePayment st1
       (markFailed "User already has an active subscription for this plan" payment1),
     VerifyResult.err "You already have an active subscription for this plan" 400)
  else
    let newSub : Subscription :=
      { id := st1.nextSubId
        user := payment1.user
        plan := payment1.plan
        status := SubStatus.active
        startDate := now
        endDate := now + plan.duration * dayMs
        paymentId := some payment1.id
        billingHistory := [⟨now, payment1.amount, payment1.id, true⟩] }
    let st2 := { st1 with subs := st1.subs ++ [newSub],
                          nextSubId := st1.nextSubId + 1 }
    let payment2 := { payment1 with subscription := some newSub.id }
    (savePayment st2 payment2, VerifyResult.purchased newSub.id)

/-- `verifyPayment` of `src/controllers/paymentController.js`.
`sigOk` is the outcome of `verifyRazorpaySignature` (HMAC crypto is
outside the embedding); `inv` is the invoice number the pre-save hook
would generate on completion.  The fire-and-forget email and the logger
have no effect on the modelled state.  The three action blocks are the
contiguous renew / upgrade / purchase blocks of the handler. -/
def verifyPayment (now : Int) (orderId rpPaymentId signature : String)
    (paymentId : Nat) (sigOk : Bool) (inv : String) (st : St) :
    St × VerifyResult :=
  match findPayment st paymentId with
  | none => (st, VerifyResult.err "Payment record not found" 404)
  | some payment =>
    if payment.razorpayOrderId.any (fun o => o != orderId) then
      (st, VerifyResult.err "Order id mismatch" 400)
    else if ¬ sigOk then
      (savePayment st (markFailed "Signature verification failed" payment),
       VerifyResult.err "Payment verification failed" 400)
    else
      -- `payment.status === completed && payment.subscription` (the idempotent
      -- replay guard); in the branch the subscription reference is non-null
      if payment.status = PayStatus.completed ∧ payment.subscription ≠ none then
        (st, VerifyResult.alreadyProcessed (payment.subscription.getD 0))
      else
        let payment1 := markCompleted now (some rpPaymentId) (some signature)
          (some ("verify:" ++ orderId ++ "|" ++ rpPaymentId)) inv payment
        let st1 := savePayment st payment1
        match findPlan st1 payment1.plan with
        | none =>
          (savePayment st1 (markFailed "Associated plan not found" payment1),
           VerifyResult.err "Associated plan not found" 500)
        | some plan =>
          let existingActive := findActiveByUserQ st1 payment1.user now
          match payment1.action with
          | PayAction.renew => verifyRenew now payment1 plan st1
          | PayAction.upgrade => verifyUpgrade now payment1 plan st1
          | PayAction.purchase => verifyPurchase now payment1 plan existingActive st1

/-- Result of `POST /api/payments/create-order`. -/
inductive OrderResult
  | err (msg : String) (code : Nat)
  | ok (paymentId : Nat) (orderId : String)
deriving DecidableEq, Repr

/-- `createOrder` of `src/controllers/paymentController.js`.  `gatewayOk`
and `orderId` stand for the outcome of the external
`razorpay.orders.create` call. -/
def createOrder (now : Int) (userId planId : Nat) (action : PayAction)
    (subscriptionId : Option Nat) (gatewayOk : Bool) (orderId : String)
    (st : St) : St × OrderResult :=
  match findPlan st planId with
  | none => (st, OrderResult.err "Invalid planId" 400)
  | some plan =>
    if plan.amount ≤ 0 then
      (st, OrderResult.err "Server misconfiguration: plan amount invalid" 500)
    else
      let proceed := fun (target : Option Nat) =>
        let payment : Payment :=
          { id := st.nextPayId
            user := userId
            plan := plan.id
            subscription := none
            action := action
            targetSubscription := target
            amount := plan.amount
            razorpayOrderId := none
            razorpayPaymentId := none
            razorpaySignature := none
            status := PayStatus.pending
            invoiceNumber := none
            invoiceGeneratedAt := none
            gatewayResponse := none
            webhookReceived := false
            webhookData := none
            completedAt := none
            failureReason := none
            createdAt := now }
        let st1 := { st with payments := st.payments ++ [payment],
                             nextPayId := st.nextPayId + 1 }
        if gatewayOk then
          (savePayment st1 { payment with razorpayOrderId := some orderId },
           OrderResult.ok payment.id orderId)
        else
          (savePayment st1 (markFailed "Razorpay order creation failed" payment),
           OrderResult.err "Failed to create Razorpay order" 502)
      if action = PayAction.renew ∨ action = PayAction.upgrade then
        match subscriptionId with
        | none => (st, OrderResult.err "subscriptionId is required for renew/upgrade" 400)
        | some sid =>
          match findSub st sid with
          | none => (st, OrderResult.err "Target subscription not found" 404)
          | some target =>
            if target.user ≠ userId then
              (st, OrderResult.err "Target subscription not owned by user" 403)
            else if action = PayAction.upgrade ∧ target.plan = plan.id then
              (st, OrderResult.err "Cannot upgrade to the same plan" 400)
            else proceed (some target.id)
      else
        if (findActiveByUserQ st userId now).any (fun ex => ex.plan == plan.id) then
          (st, OrderResult.err
            "You already have an active subscription for this plan. Use renew or upgrade." 400)
        else proceed none

/-- Result of `POST /api/subscriptions/activate`. -/
inductive ActivateResult
  | err (msg : String) (code : Nat)
  | existing (subId : Nat)
  | created (subId : Nat)
deriving DecidableEq, Repr

/-- `activate` of `src/controllers/subscriptionController.js`.  The
subscription is created without an explicit `endDate`; the pre-validate
hook of the subscription schema fills it in as
`startDate + plan.duration days` (the plan exists here), and no billing
history is seeded. -/
def activate (now : Int) (userId paymentId planId : Nat) (st : St) :
    St × ActivateResult :=
  match findPayment st paymentId with
  | none => (st, ActivateResult.err "Payment record not found" 404)
  | some payment =>
    if payment.status ≠ PayStatus.completed then
      (st, ActivateResult.err "Payment is not completed" 400)
    else
      match findPlan st planId with
      | none => (st, ActivateResult.err "Plan not found" 404)
      | some plan =>
        if payment.user ≠ userId then
          (st, ActivateResult.err "Payment does not belong to the authenticated user" 403)
        else
          match payment.subscription with
          | some sid => (st, ActivateResult.existing sid)
          | none =>
            let newSub : Subscription :=
              { id := st.nextSubId
                user := payment.user
                plan := plan.id
                status := SubStatus.active
                startDate := now
                endDate := now + plan.duration * dayMs
                paymentId := some payment.id
                billingHistory := [] }
            let st1 := { st with subs := st.subs ++ [newSub],
                                 nextSubId := st.nextSubId + 1 }
            (savePayment st1 { payment with subscription := some newSub.id },
             ActivateResult.created newSub.id)

/-- Gateway payment status carried by a webhook event of interest. -/
inductive WebhookGwStatus
  | captured
  | authorized
  | wfailed
deriving DecidableEq, Repr

/-- Webhook transport outcome. -/
inductive WebhookResult
  | okResp
  | badSignature
deriving DecidableEq, Repr

/-- `razorpayWebhook` of `src/controllers/webhookController.js` for the
events of interest (`payment.captured` / `payment.authorized` /
`payment.failed`).  The nested mutation of `gatewayResponse.webhook` is
modelled as appending to the opaque blob.  The auto-activation branch
after save performs no work in the source (dead code) and is therefore
absent.  `inv` is the invoice number the payment pre-save hook would
generate when the status transitions to completed. -/
def webhookProcess (now : Int) (sigOk : Bool) (orderId rpPaymentId : String)
    (ws : WebhookGwStatus) (rawBody : String) (inv : String) (st : St) :
    St × WebhookResult :=
  if ¬ sigOk then (st, WebhookResult.badSignature)
  else
    match st.payments.find? (fun p => p.razorpayOrderId = some orderId) with
    | none => (st, WebhookResult.okResp)
    | some p =>
      let p1 := { p with webhookReceived := true
                         webhookData := some rawBody
                         gatewayResponse :=
                           some ((p.gatewayResponse.getD "") ++ "|webhook:" ++ rawBody) }
      let p2 :=
        match ws with
        | WebhookGwStatus.captured | WebhookGwStatus.authorized =>
          if p1.status ≠ PayStatus.completed then
            { p1 with razorpayPaymentId := some rpPaymentId
                      status := PayStatus.completed
                      completedAt := some now }
          else p1
        | WebhookGwStatus.wfailed =>
          { p1 with status := PayStatus.failed
                    failureReason := some "Webhook: payment failed" }
      let p3 :=
        if p.status ≠ PayStatus.completed ∧ p2.status = PayStatus.completed ∧
            p2.invoiceNumber = none then
          { p2 with invoiceNumber := some inv
                    invoiceGeneratedAt := some now
                    completedAt := some now }
        else p2
      (savePayment st p3, WebhookResult.okResp)

/-- `Subscription.expireOldSubscriptions` of `src/models/Subscription.js`:
`updateMany({status: active, endDate: {$lt: now}}, {$set: {status: expired}})`. -/
def expireOldSubscriptions (now : Int) (st : St) : St :=
  { st with subs := st.subs.map (fun s =>
      if s.status = SubStatus.active ∧ s.endDate < now then
        { s with status := SubStatus.expired }
      else s) }

/-!  Concrete fixtures used by the claim theorems and witnesses. -/

/-- A fixed reference instant (2023-11-14 22:13:20 UTC in epoch ms). -/
def fxT : Int := 1700000000000

/-- A priority-1 plan with a renewal cap of 2 (the cap the spec story
uses). -/
def fxPlanA : Plan :=
  { id := 1, amount := 19900, duration := 30, priority := 1,
    renewLimit := 2, allowDowngrade := false }

/-- A priority-2 plan. -/
def fxPlanB : Plan :=
  { id := 2, amount := 49900, duration := 90, priority := 2,
    renewLimit := 2, allowDowngrade := false }

/-- An active subscription of user 10 on plan 1 ending five days from
`fxT`. -/
def fxSub : Subscription :=
  { id := 100, user := 10, plan := 1, status := SubStatus.active,
    startDate := fxT - 25 * dayMs, endDate := fxT + 5 * dayMs,
    paymentId := none, billingHistory := [] }

/-- A pending renew payment of user 10 against subscription 100, created
at `fxT`. -/
def fxRenewPay (pid : Nat) (oid : String) : Payment :=
  { id := pid, user := 10, plan := 1, subscription := none,
    action := PayAction.renew, targetSubscription := some 100,
    amount := 19900, razorpayOrderId := some oid,
    razorpayPaymentId := none, razorpaySignature := none,
    status := PayStatus.pending, invoiceNumber := none,
    invoiceGeneratedAt := none, gatewayResponse := none,
    webhookReceived := false, webhookData := none, completedAt := none,
    failureReason := none, createdAt := fxT }

/-- A payment that has already completed at `fxT` (with invoice issued),
not yet linked to a subscription. -/
def fxCompletedPay : Payment :=
  { fxRenewPay 201 "o1" with
    action := PayAction.purchase
    targetSubscription := none
    status := PayStatus.completed
    completedAt := some fxT
    invoiceNumber := some "INV-20231114-A"
    invoiceGeneratedAt := some fxT
    razorpayPaymentId := some "rp1" }

/-- Store for the renewal-cap story: two pending renew payments against
subscription 100 whose plan has cap 2. -/
def c1St : St :=
  { plans := [fxPlanA, fxPlanB],
    payments := [fxRenewPay 201 "o1", fxRenewPay 202 "o2"],
    subs := [fxSub], nextPayId := 300, nextSubId := 101 }

/-- The store after the first renew payment is verified. -/
def c1St1 : St := (verifyPayment fxT "o1" "rp1" "sig1" 201 true "inv1" c1St).1

/-- The completed-and-linked payment used to witness the replay theorem. -/
def c3Pay : Payment := { fxCompletedPay with subscription := some 100 }

/-- Store with the completed, linked payment and its subscription. -/
def c3St : St :=
  { plans := [fxPlanA, fxPlanB], payments := [c3Pay],
    subs := [{ fxSub with paymentId := some 201 }],
    nextPayId := 300, nextSubId := 101 }

/-- A pending upgrade payment of user 10 from subscription 100 (plan 1)
to plan 2. -/
def fxUpgPay : Payment :=
  { fxRenewPay 210 "o5" with
    action := PayAction.upgrade
    plan := 2
    amount := 49900 }

/-- Store for the upgrade story: subscription 100 on plan 1, pending
upgrade payment to plan 2. -/
def c6St : St :=
  { plans := [fxPlanA, fxPlanB], payments := [fxUpgPay], subs := [fxSub],
    nextPayId := 300, nextSubId := 101 }

/-- A completed, unlinked purchase payment of user 10 for plan 1. -/
def c7Pay (pid : Nat) : Payment := { fxCompletedPay with id := pid }

/-- Store with two completed, unlinked purchase payments for the same
plan and no subscriptions. -/
def c7St : St :=
  { plans := [fxPlanA, fxPlanB], payments := [c7Pay 301, c7Pay 302],
    subs := [], nextPayId := 400, nextSubId := 500 }

/-- Store after the first payment is activated. -/
def c7St1 : St := (activate fxT 10 301 1 c7St).1

/-- Active subscription of user 10 on plan 2, stored before the plan-1
subscription. -/
def c7SubOther : Subscription :=
  { id := 90, user := 10, plan := 2, status := SubStatus.active,
    startDate := fxT - dayMs, endDate := fxT + 89 * dayMs,
    paymentId := none, billingHistory := [] }

/-- Active subscription of user 10 on plan 1, stored second. -/
def c7SubSame : Subscription :=
  { id := 91, user := 10, plan := 1, status := SubStatus.active,
    startDate := fxT - dayMs, endDate := fxT + 29 * dayMs,
    paymentId := none, billingHistory := [] }

/-- A pending purchase payment of user 10 for plan 1. -/
def c7PurPay : Payment :=
  { fxRenewPay 310 "o7" with
    action := PayAction.purchase
    targetSubscription := none }

/-- Store where user 10 already holds an active plan-1 subscription, but
an active plan-2 subscription is listed first. -/
def c7StP : St :=
  { plans := [fxPlanA, fxPlanB], payments := [c7PurPay],
    subs := [c7SubOther, c7SubSame], nextPayId := 400, nextSubId := 500 }

/-- Store where the first-listed active subscription of user 10 is on
plan 1 and a completed unlinked plan-1 purchase payment exists. -/
def c7StW : St :=
  { plans := [fxPlanA, fxPlanB], payments := [c7Pay 301],
    subs := [c7SubSame], nextPayId := 400, nextSubId := 500 }

/-- Rewrite the allowDowngrade flag of one plan by an arbitrary
per-plan-id assignment, leaving every other attribute alone. -/
def setAllowDowngrade (f : Nat → Bool) (pl : Plan) : Plan :=
  { pl with allowDowngrade := f pl.id }

/-- Rewrite the allowDowngrade flag of every plan in the store. -/
def setAllowDowngradeSt (f : Nat → Bool) (st : St) : St :=
  { st with plans := st.plans.map (setAllowDowngrade f) }

/-- C1 (code bug): the source counts the just-completed payment itself in
the renewal-cap query (`markCompleted` runs before `countDocuments`),
so a plan with `renewLimit = 2` admits only ONE completed renewal per
calendar month: the first renew payment succeeds, and the second is
already refused with the cap message even though only one completed
renewal existed when it arrived; exactly one billing-history entry is
appended.  This contradicts the claim (first two succeed, third refused)
and the comment in `src/models/Plan.js` (renewLimit = how many renews are
allowed in the window). -/
theorem C1_renewCap_selfCount_eval :
    (verifyPayment fxT "o1" "rp1" "sig1" 201 true "inv1" c1St).2 =
      VerifyResult.renewed 100 ∧
    renewCountThisMonth c1St1 100 fxT = 1 ∧
    (verifyPayment fxT "o2" "rp2" "sig2" 202 true "inv2" c1St1).2 =
      VerifyResult.err "You have reached the maximum renewals for this period" 400 ∧
    (findSub (verifyPayment fxT "o2" "rp2" "sig2" 202 true "inv2" c1St1).1 100).map
      (fun s => s.billingHistory.length) = some 1 ∧
    (findPayment (verifyPayment fxT "o2" "rp2" "sig2" 202 true "inv2" c1St1).1 202).map
      (fun p => p.status) = some PayStatus.failed := by
  decide

/-- C2 counterexample: `markCompleted` has no already-completed guard; a
second completion call on an already-completed payment overwrites
`completedAt` with the new call time, so the record is not returned
unchanged. -/
theorem C2_complete_not_idempotent_cex :
    fxCompletedPay.status = PayStatus.completed ∧
    markCompleted (fxT + 60000) none none none "inv9" fxCompletedPay ≠ fxCompletedPay ∧
    (markCompleted (fxT + 60000) none none none "inv9" fxCompletedPay).completedAt =
      some (fxT + 60000) ∧
    fxCompletedPay.completedAt = some fxT := by
  decide

/-- C2 amended: on an already-completed payment a second
`markCompleted` call with no gateway arguments changes exactly one
field: `completedAt` is overwritten with the new call time (gateway
fields are additionally overwritten when fresh values are supplied); the
operation is not idempotent at the ledger level — the at-most-once guard
lives in the callers. -/
theorem C2_complete_overwrites_completedAt (p : Payment) (now : Int) (inv : String)
    (h : p.status = PayStatus.completed) :
    markCompleted now none none none inv p = { p with completedAt := some now } := by
  cases p
  simp_all [markCompleted]

/-- Witness for `C2_complete_overwrites_completedAt` at the concrete
completed payment fixture. -/
theorem C2_complete_overwrites_completedAt_witness :
    markCompleted (fxT + 60000) none none none "inv9" fxCompletedPay =
      { fxCompletedPay with completedAt := some (fxT + 60000) } :=
  C2_complete_overwrites_completedAt fxCompletedPay (fxT + 60000) "inv9" rfl

/-- C4 counterexample: `markFailed` has no completed-guard; applied to an
already-completed payment it moves the status backwards to failed, and
the webhook `payment.failed` branch does the same. -/
theorem C4_fail_after_complete_cex :
    fxCompletedPay.status = PayStatus.completed ∧
    (markFailed "late failure signal" fxCompletedPay).status = PayStatus.failed := by
  decide

/-- C4 amended: payment status is not monotone.  `markFailed`
unconditionally sets status to failed and records the reason, whatever
the prior status (including completed); the webhook `payment.failed`
event likewise overwrites a matched payment to failed unconditionally
(only the captured/authorized webhook branch checks for an existing
completed status). -/
theorem C4_status_not_monotone (reason : String) (p : Payment) (st : St)
    (now : Int) (oid rp body inv : String)
    (hfind : st.payments.find? (fun q => q.razorpayOrderId = some oid) = some p) :
    markFailed reason p =
      { p with status := PayStatus.failed, failureReason := some reason } ∧
    (webhookProcess now true oid rp WebhookGwStatus.wfailed body inv st).1 =
      savePayment st
        { p with
          webhookReceived := true
          webhookData := some body
          gatewayResponse := some ((p.gatewayResponse.getD "") ++ "|webhook:" ++ body)
          status := PayStatus.failed
          failureReason := some "Webhook: payment failed" } := by
  refine ⟨rfl, ?_⟩
  simp [webhookProcess, hfind]

/-- Witness for `C4_status_not_monotone`: the completed fixture payment
is matched by order id and flipped to failed by a `payment.failed`
webhook. -/
theorem C4_status_not_monotone_witness :
    markFailed "late" fxCompletedPay =
      { fxCompletedPay with status := PayStatus.failed, failureReason := some "late" } ∧
    (webhookProcess fxT true "o1" "rp1" WebhookGwStatus.wfailed "raw" "inv1"
        { plans := [fxPlanA], payments := [fxCompletedPay], subs := [],
          nextPayId := 300, nextSubId := 101 }).1 =
      savePayment
        { plans := [fxPlanA], payments := [fxCompletedPay], subs := [],
          nextPayId := 300, nextSubId := 101 }
        { fxCompletedPay with
          webhookReceived := true
          webhookData := some "raw"
          gatewayResponse := some ((fxCompletedPay.gatewayResponse.getD "") ++ "|webhook:" ++ "raw")
          status := PayStatus.failed
          failureReason := some "Webhook: payment failed" } :=
  C4_status_not_monotone "late" fxCompletedPay
    { plans := [fxPlanA], payments := [fxCompletedPay], subs := [],
      nextPayId := 300, nextSubId := 101 }
    fxT "o1" "rp1" "raw" "inv1" (by decide)

/-!  Helper lemmas: field preservation and store-projection facts. -/

theorem markCompleted_id (now : Int) (rp sig gw : Option String) (inv : String)
    (p : Payment) : (markCompleted now rp sig gw inv p).id = p.id := by
  simp only [markCompleted]; split <;> rfl

theorem markCompleted_user (now : Int) (rp sig gw : Option String) (inv : String)
    (p : Payment) : (markCompleted now rp sig gw inv p).user = p.user := by
  simp only [markCompleted]; split <;> rfl

theorem markCompleted_plan (now : Int) (rp sig gw : Option String) (inv : String)
    (p : Payment) : (markCompleted now rp sig gw inv p).plan = p.plan := by
  simp only [markCompleted]; split <;> rfl

theorem markCompleted_subscription (now : Int) (rp sig gw : Option String)
    (inv : String) (p : Payment) :
    (markCompleted now rp sig gw inv p).subscription = p.subscription := by
  simp only [markCompleted]; split <;> rfl

theorem markCompleted_action (now : Int) (rp sig gw : Option String) (inv : String)
    (p : Payment) : (markCompleted now rp sig gw inv p).action = p.action := by
  simp only [markCompleted]; split <;> rfl

theorem markCompleted_target (now : Int) (rp sig gw : Option String) (inv : String)
    (p : Payment) :
    (markCompleted now rp sig gw inv p).targetSubscription = p.targetSubscription := by
  simp only [markCompleted]; split <;> rfl

theorem markCompleted_amount (now : Int) (rp sig gw : Option String) (inv : String)
    (p : Payment) : (markCompleted now rp sig gw inv p).amount = p.amount := by
  simp only [markCompleted]; split <;> rfl

theorem markCompleted_status (now : Int) (rp sig gw : Option String) (inv : String)
    (p : Payment) : (markCompleted now rp sig gw inv p).status = PayStatus.completed := by
  simp only [markCompleted]; split <;> rfl

theorem findPlan_savePayment (st : St) (p : Payment) (i : Nat) :
    findPlan (savePayment st p) i = findPlan st i := rfl

theorem findSub_savePayment (st : St) (p : Payment) (i : Nat) :
    findSub (savePayment st p) i = findSub st i := rfl

theorem findActive_savePayment (st : St) (p : Payment) (u : Nat) (now : Int) :
    findActiveByUserQ (savePayment st p) u now = findActiveByUserQ st u now := rfl

theorem savePayment_nextSubId (st : St) (p : Payment) :
    (savePayment st p).nextSubId = st.nextSubId := rfl

theorem saveSub_nextSubId (st : St) (s : Subscription) :
    (saveSub st s).nextSubId = st.nextSubId := rfl

theorem savePayment_nextPayId (st : St) (p : Payment) :
    (savePayment st p).nextPayId = st.nextPayId := rfl

theorem saveSub_nextPayId (st : St) (s : Subscription) :
    (saveSub st s).nextPayId = st.nextPayId := rfl

/-- C3: reconciliation replay is idempotent.  For a payment that is
already completed and already linked to a subscription, a (signature-
valid, order-matching) verify call returns the linked subscription and
leaves the store untouched, and an activate call for the owning user does
the same: no subscription is created and no billing history is appended,
so completing the same payment twice yields exactly one subscription and
one billing-history entry. -/
theorem C3_idempotent_replay (st : St) (now : Int) (oid rp sig inv : String)
    (pid sid uid plid : Nat) (p : Payment) (pl : Plan)
    (hp : findPayment st pid = some p)
    (hord : p.razorpayOrderId.any (fun o => o != oid) = false)
    (hc : p.status = PayStatus.completed)
    (hs : p.subscription = some sid)
    (hpl : findPlan st plid = some pl)
    (hu : p.user = uid) :
    verifyPayment now oid rp sig pid true inv st = (st, VerifyResult.alreadyProcessed sid) ∧
    activate now uid pid plid st = (st, ActivateResult.existing sid) := by
  constructor
  · simp [verifyPayment, hp, hord, hc, hs]
  · simp [activate, hp, hc, hs, hu, hpl]

/-- Witness for `C3_idempotent_replay` on the concrete replay store. -/
theorem C3_idempotent_replay_witness :
    verifyPayment fxT "o1" "rp9" "sig9" 201 true "inv9" c3St =
      (c3St, VerifyResult.alreadyProcessed 100) ∧
    activate fxT 10 201 1 c3St = (c3St, ActivateResult.existing 100) :=
  C3_idempotent_replay c3St fxT "o1" "rp9" "sig9" "inv9" 201 100 10 1 c3Pay fxPlanA
    (by decide) (by decide) (by decide) (by decide) (by decide) (by decide)

/-- The end-date base in the renew branch
(`sub.endDate > now ? sub.endDate : now`) is the max of the two. -/
theorem ite_endDate_max (a b : Int) : (if a < b then b else a) = max b a := by
  rcases lt_or_le a b with h | h
  · rw [if_pos h, max_eq_left h.le]
  · rw [if_neg (not_lt.mpr h), max_eq_right h]

/-- C5: a successful renewal extends the target subscription to
`max(currentEnd, now) + plan.duration` days, appends exactly one
billing-history entry carrying the payment's amount, sets the status back
to active, and links the payment; nothing else changes. -/
theorem C5_renew_arithmetic (st : St) (now : Int) (oid rp sig inv : String)
    (pid tid : Nat) (p : Payment) (pl plSub : Plan) (sub : Subscription)
    (hp : findPayment st pid = some p)
    (hord : p.razorpayOrderId.any (fun o => o != oid) = false)
    (hnolink : p.subscription = none)
    (hact : p.action = PayAction.renew)
    (htgt : p.targetSubscription = some tid)
    (hpl : findPlan st p.plan = some pl)
    (hsub : findSub st tid = some sub)
    (hplSub : findPlan st sub.plan = some plSub)
    (hcap : ¬(0 < plSub.renewLimit ∧ (plSub.renewLimit : Int) ≤
        (renewCountThisMonth (savePayment st (markCompleted now (some rp) (some sig)
          (some ("verify:" ++ oid ++ "|" ++ rp)) inv p)) sub.id now : Int))) :
    verifyPayment now oid rp sig pid true inv st =
      (savePayment
        (saveSub
          (savePayment st (markCompleted now (some rp) (some sig)
            (some ("verify:" ++ oid ++ "|" ++ rp)) inv p))
          { sub with
            endDate := max sub.endDate now + pl.duration * dayMs
            billingHistory := sub.billingHistory ++ [⟨now, p.amount, p.id, true⟩]
            status := SubStatus.active })
        { markCompleted now (some rp) (some sig)
            (some ("verify:" ++ oid ++ "|" ++ rp)) inv p with
          subscription := some sub.id },
       VerifyResult.renewed sub.id) := by
  simp only [verifyPayment, verifyRenew, hp, hord, hnolink, markCompleted_plan,
    markCompleted_action, markCompleted_target, markCompleted_amount, markCompleted_id,
    findPlan_savePayment, findSub_savePayment, hact, htgt, hpl, hsub, hplSub,
    ite_endDate_max]
  simp [verifyRenew, hcap, hsub, hplSub, hpl, hact, htgt, markCompleted_plan,
    markCompleted_action, markCompleted_target, markCompleted_amount, markCompleted_id,
    findPlan_savePayment, findSub_savePayment, ite_endDate_max]

/-- Witness for `C5_renew_arithmetic`: the first renewal of the fixture
subscription (end five days ahead, duration 30) lands on
`max(end, now) + 30 days = now + 35 days`. -/
theorem C5_renew_arithmetic_witness :
    verifyPayment fxT "o1" "rp1" "sig1" 201 true "inv1" c1St =
      (savePayment
        (saveSub
          (savePayment c1St (markCompleted fxT (some "rp1") (some "sig1")
            (some ("verify:" ++ "o1" ++ "|" ++ "rp1")) "inv1" (fxRenewPay 201 "o1")))
          { fxSub with
            endDate := max fxSub.endDate fxT + fxPlanA.duration * dayMs
            billingHistory := fxSub.billingHistory ++ [⟨fxT, 19900, 201, true⟩]
            status := SubStatus.active })
        { markCompleted fxT (some "rp1") (some "sig1")
            (some ("verify:" ++ "o1" ++ "|" ++ "rp1")) "inv1" (fxRenewPay 201 "o1") with
          subscription := some 100 },
       VerifyResult.renewed 100) :=
  C5_renew_arithmetic c1St fxT "o1" "rp1" "sig1" "inv1" 201 100 (fxRenewPay 201 "o1")
    fxPlanA fxPlanA fxSub (by decide) (by decide) (by decide) (by decide) (by decide)
    (by decide) (by decide) (by decide) (by decide)

/-- C6: upgrades must strictly increase plan priority.  (i) When the old
plan's priority is not below the new plan's, the upgrade verify is
refused with a conflict, the payment is marked failed and no subscription
is created; (ii) when it is strictly below, the old subscription is set
to expired (not cancelled) and a fresh active subscription on the new
plan is created starting now, ending now + duration days, linked to the
same payment; (iii) creating an upgrade order against a target already on
the requested plan is refused. -/
theorem C6_upgrade_monotone (st : St) (now : Int) (oid rp sig inv ordId : String)
    (pid tid sid uid plid : Nat) (gwOk : Bool)
    (p : Payment) (pl oldPl plC : Plan) (oldSub target : Subscription)
    (hp : findPayment st pid = some p)
    (hord : p.razorpayOrderId.any (fun o => o != oid) = false)
    (hnolink : p.subscription = none)
    (hact : p.action = PayAction.upgrade)
    (htgt : p.targetSubscription = some tid)
    (hpl : findPlan st p.plan = some pl)
    (hold : findSub st tid = some oldSub)
    (holdpl : findPlan st oldSub.plan = some oldPl)
    (hplC : findPlan st plid = some plC)
    (hamt : 0 < plC.amount)
    (hsubC : findSub st sid = some target)
    (howner : target.user = uid)
    (hsame : target.plan = plC.id) :
    (pl.priority ≤ oldPl.priority →
      verifyPayment now oid rp sig pid true inv st =
        (savePayment
          (savePayment st (markCompleted now (some rp) (some sig)
            (some ("verify:" ++ oid ++ "|" ++ rp)) inv p))
          (markFailed "Downgrade / same-level upgrade attempted"
            (markCompleted now (some rp) (some sig)
              (some ("verify:" ++ oid ++ "|" ++ rp)) inv p)),
         VerifyResult.err
           "Cannot downgrade or choose same level plan. Upgrade only to higher plans." 400)) ∧
    (oldPl.priority < pl.priority →
      verifyPayment now oid rp sig pid true inv st =
        (savePayment
          { saveSub (savePayment st (markCompleted now (some rp) (some sig)
              (some ("verify:" ++ oid ++ "|" ++ rp)) inv p))
              { oldSub with status := SubStatus.expired } with
            subs := (saveSub (savePayment st (markCompleted now (some rp) (some sig)
              (some ("verify:" ++ oid ++ "|" ++ rp)) inv p))
              { oldSub with status := SubStatus.expired }).subs ++
              [{ id := st.nextSubId, user := p.user, plan := p.plan,
                 status := SubStatus.active, startDate := now,
                 endDate := now + pl.duration * dayMs,
                 paymentId := some p.id,
                 billingHistory := [⟨now, p.amount, p.id, true⟩] }]
            nextSubId := st.nextSubId + 1 }
          { markCompleted now (some rp) (some sig)
              (some ("verify:" ++ oid ++ "|" ++ rp)) inv p with
            subscription := some st.nextSubId },
         VerifyResult.upgraded st.nextSubId)) ∧
    createOrder now uid plid PayAction.upgrade (some sid) gwOk ordId st =
      (st, OrderResult.err "Cannot upgrade to the same plan" 400) := by
  refine ⟨?_, ?_, ?_⟩
  · intro hle
    simp only [verifyPayment, verifyUpgrade, hp, hord, hnolink, markCompleted_plan,
      markCompleted_action, markCompleted_target, hact, htgt, findPlan_savePayment,
      findSub_savePayment, hpl, hold, holdpl]
    simp [verifyUpgrade, hle, hnolink]
  · intro hlt
    simp only [verifyPayment, verifyUpgrade, hp, hord, hnolink, markCompleted_plan,
      markCompleted_action, markCompleted_target, markCompleted_user,
      markCompleted_amount, markCompleted_id, hact, htgt, findPlan_savePayment,
      findSub_savePayment, hpl, hold, holdpl]
    simp [verifyUpgrade, not_le.mpr hlt, hnolink, saveSub_nextSubId, savePayment_nextSubId]
  · simp only [createOrder, hplC, not_le.mpr hamt]
    simp [not_le.mpr hamt, hsubC, howner, hsame]

/-- Witness for `C6_upgrade_monotone` on the concrete upgrade store:
plan 1 (priority 1) to plan 2 (priority 2). -/
theorem C6_upgrade_monotone_witness :
    (fxPlanB.priority ≤ fxPlanA.priority →
      verifyPayment fxT "o5" "rp5" "sig5" 210 true "inv5" c6St =
        (savePayment
          (savePayment c6St (markCompleted fxT (some "rp5") (some "sig5")
            (some ("verify:" ++ "o5" ++ "|" ++ "rp5")) "inv5" fxUpgPay))
          (markFailed "Downgrade / same-level upgrade attempted"
            (markCompleted fxT (some "rp5") (some "sig5")
              (some ("verify:" ++ "o5" ++ "|" ++ "rp5")) "inv5" fxUpgPay)),
         VerifyResult.err
           "Cannot downgrade or choose same level plan. Upgrade only to higher plans." 400)) ∧
    (fxPlanA.priority < fxPlanB.priority →
      verifyPayment fxT "o5" "rp5" "sig5" 210 true "inv5" c6St =
        (savePayment
          { saveSub (savePayment c6St (markCompleted fxT (some "rp5") (some "sig5")
              (some ("verify:" ++ "o5" ++ "|" ++ "rp5")) "inv5" fxUpgPay))
              { fxSub with status := SubStatus.expired } with
            subs := (saveSub (savePayment c6St (markCompleted fxT (some "rp5") (some "sig5")
              (some ("verify:" ++ "o5" ++ "|" ++ "rp5")) "inv5" fxUpgPay))
              { fxSub with status := SubStatus.expired }).subs ++
              [{ id := c6St.nextSubId, user := fxUpgPay.user, plan := fxUpgPay.plan,
                 status := SubStatus.active, startDate := fxT,
                 endDate := fxT + fxPlanB.duration * dayMs,
                 paymentId := some fxUpgPay.id,
                 billingHistory := [⟨fxT, fxUpgPay.amount, fxUpgPay.id, true⟩] }]
            nextSubId := c6St.nextSubId + 1 }
          { markCompleted fxT (some "rp5") (some "sig5")
              (some ("verify:" ++ "o5" ++ "|" ++ "rp5")) "inv5" fxUpgPay with
            subscription := some c6St.nextSubId },
         VerifyResult.upgraded c6St.nextSubId)) ∧
    createOrder fxT 10 1 PayAction.upgrade (some 100) true "oX" c6St =
      (c6St, OrderResult.err "Cannot upgrade to the same plan" 400) :=
  C6_upgrade_monotone c6St fxT "o5" "rp5" "sig5" "inv5" "oX" 210 100 100 10 1 true
    fxUpgPay fxPlanB fxPlanA fxPlanA fxSub fxSub
    (by decide) (by decide) (by decide) (by decide) (by decide) (by decide)
    (by decide) (by decide) (by decide) (by decide) (by decide) (by decide)
    (by decide)

/-- C7 counterexample: the at-most-one-active-subscription-per-plan
invariant is not preserved.  (i) `activate` performs no duplicate-active
check: two completed unlinked payments for the same plan both activate,
leaving user 10 with two active plan-1 subscriptions and no conflict.
(ii) Even the purchase path violates it: the guard inspects only the
first-found active subscription of the user (any plan), so when an active
plan-2 subscription is listed before the active plan-1 subscription, a
purchase order and verify for plan 1 both succeed, again yielding two
active plan-1 subscriptions. -/
theorem C7_duplicate_active_cex :
    (activate fxT 10 301 1 c7St).2 = ActivateResult.created 500 ∧
    (activate fxT 10 302 1 c7St1).2 = ActivateResult.created 501 ∧
    countActiveOnPlan (activate fxT 10 302 1 c7St1).1 10 1 = 2 ∧
    (createOrder fxT 10 1 PayAction.purchase none true "oY" c7StP).2 =
      OrderResult.ok 400 "oY" ∧
    (verifyPayment fxT "o7" "rp7" "sig7" 310 true "inv7" c7StP).2 =
      VerifyResult.purchased 500 ∧
    countActiveOnPlan (verifyPayment fxT "o7" "rp7" "sig7" 310 true "inv7" c7StP).1 10 1 = 2 := by
  decide

/-- C7 amended: the duplicate-active policy that actually holds.  (i)
When the first-listed currently-active subscription of the user is on the
requested plan, purchase order creation is refused with a conflict; (ii)
under the same condition the purchase verify path is refused and the
payment is marked failed; (iii) `activate` performs no duplicate-active
check at all: for any store, a completed unlinked payment owned by the
caller is activated into a fresh active subscription regardless of
existing active subscriptions on the same plan. -/
theorem C7_firstFound_guard (st : St) (now : Int) (oid rp sig inv ordId : String)
    (pid uid plid : Nat) (gwOk : Bool) (p : Payment) (pl plO : Plan)
    (ex : Subscription)
    (hplO : findPlan st plid = some plO)
    (hamtO : 0 < plO.amount)
    (hexO : findActiveByUserQ st uid now = some ex)
    (hsameO : ex.plan = plO.id)
    (hp : findPayment st pid = some p)
    (hord : p.razorpayOrderId.any (fun o => o != oid) = false)
    (hnolink : p.subscription = none)
    (hact : p.action = PayAction.purchase)
    (hpl : findPlan st p.plan = some pl)
    (hexV : findActiveByUserQ st p.user now = some ex)
    (hsameV : ex.plan = pl.id)
    (hcA : p.status = PayStatus.completed)
    (huA : p.user = uid) :
    createOrder now uid plid PayAction.purchase none gwOk ordId st =
      (st, OrderResult.err
        "You already have an active subscription for this plan. Use renew or upgrade." 400) ∧
    verifyPayment now oid rp sig pid true inv st =
      (savePayment
        (savePayment st (markCompleted now (some rp) (some sig)
          (some ("verify:" ++ oid ++ "|" ++ rp)) inv p))
        (markFailed "User already has an active subscription for this plan"
          (markCompleted now (some rp) (some sig)
            (some ("verify:" ++ oid ++ "|" ++ rp)) inv p)),
       VerifyResult.err "You already have an active subscription for this plan" 400) ∧
    activate now uid pid plid st =
      (savePayment
        { st with
          subs := st.subs ++
            [{ id := st.nextSubId, user := p.user, plan := plO.id,
               status := SubStatus.active, startDate := now,
               endDate := now + plO.duration * dayMs,
               paymentId := some p.id, billingHistory := [] }]
          nextSubId := st.nextSubId + 1 }
        { p with subscription := some st.nextSubId },
       ActivateResult.created st.nextSubId) := by
  refine ⟨?_, ?_, ?_⟩
  · simp only [createOrder, hplO]
    simp [not_le.mpr hamtO, hexO, hsameO]
  · simp only [verifyPayment, verifyPurchase, hp, hord, hnolink, markCompleted_plan,
      markCompleted_action, markCompleted_user, hact, findPlan_savePayment,
      findActive_savePayment, hpl, hexV]
    simp [verifyPurchase, hnolink, hexV, hsameV, markCompleted_user, findActive_savePayment]
  · simp [activate, hp, hcA, hplO, huA, hnolink]

/-- Witness for `C7_firstFound_guard` on the concrete store whose
first-listed active subscription is on the requested plan. -/
theorem C7_firstFound_guard_witness :
    createOrder fxT 10 1 PayAction.purchase none true "oW" c7StW =
      (c7StW, OrderResult.err
        "You already have an active subscription for this plan. Use renew or upgrade." 400) ∧
    verifyPayment fxT "o1" "rpW" "sigW" 301 true "invW" c7StW =
      (savePayment
        (savePayment c7StW (markCompleted fxT (some "rpW") (some "sigW")
          (some ("verify:" ++ "o1" ++ "|" ++ "rpW")) "invW" (c7Pay 301)))
        (markFailed "User already has an active subscription for this plan"
          (markCompleted fxT (some "rpW") (some "sigW")
            (some ("verify:" ++ "o1" ++ "|" ++ "rpW")) "invW" (c7Pay 301))),
       VerifyResult.err "You already have an active subscription for this plan" 400) ∧
    activate fxT 10 301 1 c7StW =
      (savePayment
        { c7StW with
          subs := c7StW.subs ++
            [{ id := c7StW.nextSubId, user := (c7Pay 301).user, plan := fxPlanA.id,
               status := SubStatus.active, startDate := fxT,
               endDate := fxT + fxPlanA.duration * dayMs,
               paymentId := some (c7Pay 301).id, billingHistory := [] }]
          nextSubId := c7StW.nextSubId + 1 }
        { c7Pay 301 with subscription := some c7StW.nextSubId },
       ActivateResult.created c7StW.nextSubId) :=
  C7_firstFound_guard c7StW fxT "o1" "rpW" "sigW" "invW" "oW" 301 10 1 true
    (c7Pay 301) fxPlanA fxPlanA c7SubSame
    (by decide) (by decide) (by decide) (by decide) (by decide) (by decide)
    (by decide) (by decide) (by decide) (by decide) (by decide) (by decide)
    (by decide)

/-- C8: the expiry sweep maps each stored subscription pointwise: a
subscription that is active with end date strictly before now becomes
expired with every other field unchanged, and any other subscription is
returned identically; plans, payments and the id counters are untouched. -/
theorem C8_expire_sweep (st : St) (now : Int) :
    (expireOldSubscriptions now st).plans = st.plans ∧
    (expireOldSubscriptions now st).payments = st.payments ∧
    (expireOldSubscriptions now st).nextPayId = st.nextPayId ∧
    (expireOldSubscriptions now st).nextSubId = st.nextSubId ∧
    ∀ i : Nat, (expireOldSubscriptions now st).subs[i]? =
      (st.subs[i]?).map (fun s =>
        if s.status = SubStatus.active ∧ s.endDate < now then
          { s with status := SubStatus.expired }
        else s) := by
  refine ⟨rfl, rfl, rfl, rfl, fun i => ?_⟩
  simp [expireOldSubscriptions, List.getElem?_map]

/-- C9 counterexample: completion is not a compare-and-set keyed on
pending.  (i) `markCompleted` moves even a failed payment to completed;
(ii) a verify call arriving after a webhook completion (payment
completed but not yet linked) does not short-circuit to the
idempotent-replay path: it re-runs the completion write, overwriting
`completedAt`, before creating the subscription. -/
theorem C9_not_cas_cex :
    (markFailed "earlier failure" (c7Pay 301)).status = PayStatus.failed ∧
    (markCompleted (fxT + 5000) none none none "invX"
      (markFailed "earlier failure" (c7Pay 301))).status = PayStatus.completed ∧
    (findPayment c7St 301).map (fun p => p.completedAt) = some (some fxT) ∧
    (verifyPayment (fxT + 5000) "o1" "rp9" "sig9" 301 true "inv9" c7St).2 =
      VerifyResult.purchased 500 ∧
    (findPayment (verifyPayment (fxT + 5000) "o1" "rp9" "sig9" 301 true "inv9" c7St).1 301).map
      (fun p => p.completedAt) = some (some (fxT + 5000)) := by
  decide

/-- C9 amended: the transition into completed is an unconditional
read-modify-write, not a compare-and-set keyed on pending:
`markCompleted` yields a completed payment whatever the prior status,
and a caller that observes a completed-but-unlinked payment (the state a
webhook completion leaves behind) falls through the replay guard,
re-executes the completion write (stamping a fresh `completedAt`) and
creates the one subscription. -/
theorem C9_unconditional_write (now : Int) (rp sig gw : Option String) (inv : String)
    (st : St) (oid rps sigs invs : String) (pid : Nat) (p : Payment) (pl : Plan)
    (hp : findPayment st pid = some p)
    (hord : p.razorpayOrderId.any (fun o => o != oid) = false)
    (hc : p.status = PayStatus.completed)
    (hnolink : p.subscription = none)
    (hact : p.action = PayAction.purchase)
    (hpl : findPlan st p.plan = some pl)
    (hnoex : findActiveByUserQ st p.user now = none) :
    (markCompleted now rp sig gw inv p).status = PayStatus.completed ∧
    verifyPayment now oid rps sigs pid true invs st =
      (savePayment
        { savePayment st (markCompleted now (some rps) (some sigs)
            (some ("verify:" ++ oid ++ "|" ++ rps)) invs p) with
          subs := (savePayment st (markCompleted now (some rps) (some sigs)
            (some ("verify:" ++ oid ++ "|" ++ rps)) invs p)).subs ++
            [{ id := st.nextSubId, user := p.user, plan := p.plan,
               status := SubStatus.active, startDate := now,
               endDate := now + pl.duration * dayMs,
               paymentId := some p.id,
               billingHistory := [⟨now, p.amount, p.id, true⟩] }]
          nextSubId := st.nextSubId + 1 }
        { markCompleted now (some rps) (some sigs)
            (some ("verify:" ++ oid ++ "|" ++ rps)) invs p with
          subscription := some st.nextSubId },
       VerifyResult.purchased st.nextSubId) := by
  refine ⟨markCompleted_status now rp sig gw inv p, ?_⟩
  simp only [verifyPayment, verifyPurchase, hp, hord, hnolink, markCompleted_plan,
    markCompleted_action, markCompleted_user, markCompleted_amount, markCompleted_id,
    hact, findPlan_savePayment, findActive_savePayment, hpl, hnoex]
  simp [verifyPurchase, hnolink, hnoex, markCompleted_user, findActive_savePayment,
    savePayment_nextSubId]

/-- Witness for `C9_unconditional_write`: the completed-but-unlinked
fixture payment is re-completed and one subscription is created. -/
theorem C9_unconditional_write_witness :
    (markCompleted (fxT + 5000) none none none "invX" (c7Pay 301)).status =
      PayStatus.completed ∧
    verifyPayment (fxT + 5000) "o1" "rp9" "sig9" 301 true "inv9" c7St =
      (savePayment
        { savePayment c7St (markCompleted (fxT + 5000) (some "rp9") (some "sig9")
            (some ("verify:" ++ "o1" ++ "|" ++ "rp9")) "inv9" (c7Pay 301)) with
          subs := (savePayment c7St (markCompleted (fxT + 5000) (some "rp9") (some "sig9")
            (some ("verify:" ++ "o1" ++ "|" ++ "rp9")) "inv9" (c7Pay 301))).subs ++
            [{ id := c7St.nextSubId, user := (c7Pay 301).user, plan := (c7Pay 301).plan,
               status := SubStatus.active, startDate := fxT + 5000,
               endDate := (fxT + 5000) + fxPlanA.duration * dayMs,
               paymentId := some (c7Pay 301).id,
               billingHistory := [⟨fxT + 5000, (c7Pay 301).amount, (c7Pay 301).id, true⟩] }]
          nextSubId := c7St.nextSubId + 1 }
        { markCompleted (fxT + 5000) (some "rp9") (some "sig9")
            (some ("verify:" ++ "o1" ++ "|" ++ "rp9")) "inv9" (c7Pay 301) with
          subscription := some c7St.nextSubId },
       VerifyResult.purchased c7St.nextSubId) :=
  C9_unconditional_write (fxT + 5000) none none none "invX" c7St "o1" "rp9" "sig9"
    "inv9" 301 (c7Pay 301) fxPlanA
    (by decide) (by decide) (by decide) (by decide) (by decide) (by decide) (by decide)

theorem setAllowDowngrade_id (f : Nat → Bool) (pl : Plan) :
    (setAllowDowngrade f pl).id = pl.id := rfl

theorem setAllowDowngrade_amount (f : Nat → Bool) (pl : Plan) :
    (setAllowDowngrade f pl).amount = pl.amount := rfl

theorem setAllowDowngrade_duration (f : Nat → Bool) (pl : Plan) :
    (setAllowDowngrade f pl).duration = pl.duration := rfl

theorem setAllowDowngrade_priority (f : Nat → Bool) (pl : Plan) :
    (setAllowDowngrade f pl).priority = pl.priority := rfl

theorem setAllowDowngrade_renewLimit (f : Nat → Bool) (pl : Plan) :
    (setAllowDowngrade f pl).renewLimit = pl.renewLimit := rfl

theorem setAD_payments (f : Nat → Bool) (st : St) :
    (setAllowDowngradeSt f st).payments = st.payments := rfl

theorem findPlan_setAD (f : Nat → Bool) (st : St) (i : Nat) :
    findPlan (setAllowDowngradeSt f st) i =
      (findPlan st i).map (setAllowDowngrade f) := by
  have hpred : ((fun pl => decide (pl.id = i)) ∘ setAllowDowngrade f) =
      (fun pl : Plan => decide (pl.id = i)) := by
    funext pl; rfl
  simp [findPlan, setAllowDowngradeSt, List.find?_map, hpred]

theorem findPayment_setAD (f : Nat → Bool) (st : St) (i : Nat) :
    findPayment (setAllowDowngradeSt f st) i = findPayment st i := rfl

theorem findSub_setAD (f : Nat → Bool) (st : St) (i : Nat) :
    findSub (setAllowDowngradeSt f st) i = findSub st i := rfl

theorem findActive_setAD (f : Nat → Bool) (st : St) (u : Nat) (now : Int) :
    findActiveByUserQ (setAllowDowngradeSt f st) u now =
      findActiveByUserQ st u now := rfl

theorem renewCount_setAD (f : Nat → Bool) (st : St) (subId : Nat) (now : Int) :
    renewCountThisMonth (setAllowDowngradeSt f st) subId now =
      renewCountThisMonth st subId now := rfl

theorem savePayment_setAD (f : Nat → Bool) (st : St) (p : Payment) :
    savePayment (setAllowDowngradeSt f st) p =
      setAllowDowngradeSt f (savePayment st p) := rfl

theorem saveSub_setAD (f : Nat → Bool) (st : St) (s : Subscription) :
    saveSub (setAllowDowngradeSt f st) s =
      setAllowDowngradeSt f (saveSub st s) := rfl

theorem setAD_nextSubId (f : Nat → Bool) (st : St) :
    (setAllowDowngradeSt f st).nextSubId = st.nextSubId := rfl

theorem setAD_nextPayId (f : Nat → Bool) (st : St) :
    (setAllowDowngradeSt f st).nextPayId = st.nextPayId := rfl

theorem expire_setAD (f : Nat → Bool) (st : St) (now : Int) :
    expireOldSubscriptions now (setAllowDowngradeSt f st) =
      setAllowDowngradeSt f (expireOldSubscriptions now st) := rfl

theorem webhook_setAD (f : Nat → Bool) (st : St) (now : Int) (sigOk : Bool)
    (oid rp body inv : String) (ws : WebhookGwStatus) :
    webhookProcess now sigOk oid rp ws body inv (setAllowDowngradeSt f st) =
      (setAllowDowngradeSt f (webhookProcess now sigOk oid rp ws body inv st).1,
       (webhookProcess now sigOk oid rp ws body inv st).2) := by
  by_cases h : sigOk = true
  · subst h
    unfold webhookProcess
    simp only [setAD_payments]
    cases hfind : st.payments.find? (fun p => p.razorpayOrderId = some oid) <;>
      simp [hfind, savePayment_setAD]
  · simp only [Bool.not_eq_true] at h
    subst h
    rfl

theorem setAD_subs (f : Nat → Bool) (st : St) :
    (setAllowDowngradeSt f st).subs = st.subs := rfl

theorem activate_setAD (f : Nat → Bool) (st : St) (now : Int) (uid pid plid : Nat) :
    activate now uid pid plid (setAllowDowngradeSt f st) =
      (setAllowDowngradeSt f (activate now uid pid plid st).1,
       (activate now uid pid plid st).2) := by
  unfold activate
  simp only [findPayment_setAD, findPlan_setAD, setAD_nextSubId, setAD_subs]
  cases hp : findPayment st pid
  · rfl
  · cases hpl : findPlan st plid <;>
      simp only [Option.map_none, Option.map_some]
    all_goals repeat' split
    all_goals
      first
      | rfl
      | (simp_all [setAllowDowngradeSt, savePayment, setAllowDowngrade_id,
          setAllowDowngrade_duration, setAllowDowngrade_amount]; done)
      | (simp_all [setAllowDowngradeSt, savePayment, setAllowDowngrade_id,
          setAllowDowngrade_duration, setAllowDowngrade_amount]
         rename_i hgpl h2 h3
         subst hgpl
         exact ⟨rfl, Or.inl rfl⟩)

theorem createOrder_setAD (f : Nat → Bool) (st : St) (now : Int) (uid plid : Nat)
    (action : PayAction) (subscriptionId : Option Nat) (gwOk : Bool) (oid : String) :
    createOrder now uid plid action subscriptionId gwOk oid (setAllowDowngradeSt f st) =
      (setAllowDowngradeSt f (createOrder now uid plid action subscriptionId gwOk oid st).1,
       (createOrder now uid plid action subscriptionId gwOk oid st).2) := by
  unfold createOrder
  simp only [findPlan_setAD, findSub_setAD, findActive_setAD, setAD_nextPayId,
    setAD_payments]
  cases hpl : findPlan st plid
  · rfl
  · simp only [Option.map_some]
    simp [setAllowDowngrade_amount, setAllowDowngrade_id, setAllowDowngrade_duration]
    repeat' split
    all_goals subst_vars
    all_goals
      first
      | rfl
      | (simp_all [setAllowDowngradeSt, savePayment, markFailed,
          setAllowDowngrade_id, setAllowDowngrade_amount]; done)
      | simp_all [setAllowDowngradeSt, savePayment, markFailed,
          setAllowDowngrade_id, setAllowDowngrade_amount]

theorem verifyRenew_setAD (f : Nat → Bool) (now : Int) (p1 : Payment) (pl : Plan)
    (st1 : St) :
    verifyRenew now p1 (setAllowDowngrade f pl) (setAllowDowngradeSt f st1) =
      (setAllowDowngradeSt f (verifyRenew now p1 pl st1).1,
       (verifyRenew now p1 pl st1).2) := by
  unfold verifyRenew
  simp only [findSub_setAD, findPlan_setAD, renewCount_setAD, savePayment_setAD,
    saveSub_setAD, setAllowDowngrade_duration, setAllowDowngrade_renewLimit]
  cases ho : p1.targetSubscription.orElse (fun x => p1.subscription) with
  | none => rfl
  | some sid =>
    simp only
    cases hsub : findSub st1 sid with
    | none => rfl
    | some sub =>
      simp only
      cases hpl2 : findPlan st1 sub.plan with
      | none => rfl
      | some plSub =>
        simp only [Option.map_some]
        by_cases hcap : (0 < plSub.renewLimit ∧
            (plSub.renewLimit : Int) ≤ (renewCountThisMonth st1 sub.id now : Int))
        · simp [hcap, setAllowDowngrade_renewLimit]
        · simp [hcap, savePayment_setAD, saveSub_setAD, setAllowDowngrade_duration,
            setAllowDowngrade_renewLimit]

theorem verifyUpgrade_setAD (f : Nat → Bool) (now : Int) (p1 : Payment) (pl : Plan)
    (st1 : St) :
    verifyUpgrade now p1 (setAllowDowngrade f pl) (setAllowDowngradeSt f st1) =
      (setAllowDowngradeSt f (verifyUpgrade now p1 pl st1).1,
       (verifyUpgrade now p1 pl st1).2) := by
  unfold verifyUpgrade
  simp only [findSub_setAD, findPlan_setAD, savePayment_setAD, saveSub_setAD,
    setAllowDowngrade_duration, setAllowDowngrade_priority, setAD_nextSubId,
    setAD_subs]
  cases ht : p1.targetSubscription with
  | none => rfl
  | some tid =>
    simp only
    cases hsub : findSub st1 tid with
    | none => rfl
    | some oldSub =>
      simp only
      cases hpl2 : findPlan st1 oldSub.plan with
      | none => rfl
      | some oldPl =>
        simp only [Option.map_some]
        by_cases hpr : (setAllowDowngrade f pl).priority ≤ oldPl.priority
        · simp only [setAllowDowngrade_priority] at hpr
          simp [hpr, setAllowDowngrade_priority]
        · simp only [setAllowDowngrade_priority] at hpr
          simp [hpr, savePayment_setAD, saveSub_setAD, setAllowDowngrade_duration,
            setAllowDowngrade_priority, saveSub_nextSubId, savePayment_nextSubId,
            setAD_nextSubId, setAD_subs, setAllowDowngradeSt, savePayment, saveSub]

theorem verifyPurchase_setAD (f : Nat → Bool) (now : Int) (p1 : Payment) (pl : Plan)
    (ex : Option Subscription) (st1 : St) :
    verifyPurchase now p1 (setAllowDowngrade f pl) ex (setAllowDowngradeSt f st1) =
      (setAllowDowngradeSt f (verifyPurchase now p1 pl ex st1).1,
       (verifyPurchase now p1 pl ex st1).2) := by
  unfold verifyPurchase
  simp only [setAllowDowngrade_id, setAllowDowngrade_duration, savePayment_setAD,
    setAD_nextSubId, setAD_subs]
  by_cases hex : ex.any (fun e => e.plan == pl.id) = true
  · simp [hex]
  · simp [hex, savePayment_setAD, setAD_nextSubId, setAD_subs,
      setAllowDowngradeSt, savePayment]

theorem verify_setAD (f : Nat → Bool) (st : St) (now : Int)
    (oid rp sig inv : String) (pid : Nat) (ok : Bool) :
    verifyPayment now oid rp sig pid ok inv (setAllowDowngradeSt f st) =
      (setAllowDowngradeSt f (verifyPayment now oid rp sig pid ok inv st).1,
       (verifyPayment now oid rp sig pid ok inv st).2) := by
  unfold verifyPayment
  simp only [findPayment_setAD, savePayment_setAD, findPlan_setAD,
    findActive_setAD, findPlan_savePayment, findActive_savePayment,
    markCompleted_plan, markCompleted_action, markCompleted_user]
  cases hp : findPayment st pid with
  | none => rfl
  | some p =>
    simp only
    by_cases hA : p.razorpayOrderId.any (fun o => o != oid) = true
    · simp [hA]
    · simp only [hA, Bool.false_eq_true, if_false]
      by_cases hok : ok = true
      · subst hok
        simp only [not_true, if_false]
        by_cases hG : (p.status = PayStatus.completed ∧ ¬ p.subscription = none)
        · simp [hG]
        · rw [if_neg hG, if_neg hG]
          cases hpl : findPlan st p.plan with
          | none => simp [hpl]
          | some pl =>
            simp only [hpl, Option.map_some]
            cases hac : p.action with
            | renew =>
              simp only [hac]
              exact verifyRenew_setAD f now _ pl _
            | upgrade =>
              simp only [hac]
              exact verifyUpgrade_setAD f now _ pl _
            | purchase =>
              simp only [hac]
              exact verifyPurchase_setAD f now _ pl _ _
      · have hok2 : ok = false := by
          cases ok
          · rfl
          · exact absurd rfl hok
        subst hok2
        simp

/-- C10: the plan attribute allowDowngrade never influences any outcome.
Rewriting the allowDowngrade flag of every plan by an arbitrary
per-plan-id assignment commutes with each operation of the system —
verify, order creation, activate, webhook processing and the expiry
sweep — so two runs on stores identical except for allowDowngrade
produce identical results and stores again identical except for
allowDowngrade. -/
theorem C10_allowDowngrade_noninterference (f : Nat → Bool) (st : St) (now : Int)
    (oid rp sig inv body ordId : String) (pid uid plid : Nat) (ok gwOk sigW : Bool)
    (action : PayAction) (subscriptionId : Option Nat) (ws : WebhookGwStatus) :
    verifyPayment now oid rp sig pid ok inv (setAllowDowngradeSt f st) =
      (setAllowDowngradeSt f (verifyPayment now oid rp sig pid ok inv st).1,
       (verifyPayment now oid rp sig pid ok inv st).2) ∧
    createOrder now uid plid action subscriptionId gwOk ordId (setAllowDowngradeSt f st) =
      (setAllowDowngradeSt f (createOrder now uid plid action subscriptionId gwOk ordId st).1,
       (createOrder now uid plid action subscriptionId gwOk ordId st).2) ∧
    activate now uid pid plid (setAllowDowngradeSt f st) =
      (setAllowDowngradeSt f (activate now uid pid plid st).1,
       (activate now uid pid plid st).2) ∧
    webhookProcess now sigW oid rp ws body inv (setAllowDowngradeSt f st) =
      (setAllowDowngradeSt f (webhookProcess now sigW oid rp ws body inv st).1,
       (webhookProcess now sigW oid rp ws body inv st).2) ∧
    expireOldSubscriptions now (setAllowDowngradeSt f st) =
      setAllowDowngradeSt f (expireOldSubscriptions now st) :=
  ⟨verify_setAD f st now oid rp sig inv pid ok,
   createOrder_setAD f st now uid plid action subscriptionId gwOk ordId,
   activate_setAD f st now uid pid plid,
   webhook_setAD f st now sigW oid rp body inv ws,
   expire_setAD f st now⟩
